import Mathlib

/-!
Verification development for the analytics collection-and-delivery agent
(`analytics/analytics.go`).  The agent's counter arithmetic, cycle control
flow and retry discipline are embedded as pure Lean functions; Go `uint64`
values are modelled as `Nat` with the modulus `2 ^ 64` made explicit at the
one place overflow matters (the subtraction feeding `valOrZero`).  External
effects (the bitswap stats read, protobuf marshalling, signing, the gRPC
dial and the two RPCs) are modelled by an environment record saying whether
each step succeeds, and the observable transport interactions are recorded
as an event trace.
-/

namespace Analytics

/-- Modulus of Go's `uint64` arithmetic. -/
def U64 : Nat := 2 ^ 64

/-- Go `uint64` subtraction `a - b`: wraps modulo `2 ^ 64` (for operands
below `2 ^ 64` this is exactly Go's result). -/
def u64sub (a b : Nat) : Nat := (a + (U64 - b)) % U64

/-- Constant `kilobyte = 1024` from analytics.go. -/
def kilobyte : Nat := 1024

/-- Constant `maxRetryTimes = 3` from analytics.go. -/
def maxRetryTimes : Nat := 3

/-- Embeds `valOrZero` from analytics.go, line for line:
`if x < 0 { return 0 }; return x` where `x` is a `uint64`.  A `uint64`
(here a `Nat`) is never below zero, so the first branch is dead code. -/
def valOrZero (x : Nat) : Nat := if x < 0 then 0 else x

/-- The fields of `bitswap.Stat()` that `update` reads (all `uint64`,
`numPeers` standing for `len(st.Peers)`). -/
structure Stat where
  dataSent : Nat
  dataReceived : Nat
  blocksSent : Nat
  blocksReceived : Nat
  numPeers : Nat
  deriving DecidableEq

/-- The counter fields of `dataCollection` that the claims concern.  The
incidental host readings (`UpTime`, `CPUUsed`, `MemUsed`, `StorageUsed`)
are refreshed by `update` from OS introspection and play no role in any
claim, so they are omitted from the state. -/
structure DCState where
  upload : Nat
  download : Nat
  totalUp : Nat
  totalDown : Nat
  blocksUp : Nat
  blocksDown : Nat
  numPeers : Nat
  deriving DecidableEq

/-- The zero value of `dataCollection`'s counters: Go zero-initialises the
struct allocated by `new(dataCollection)`. -/
def dcInit : DCState := ⟨0, 0, 0, 0, 0, 0, 0⟩

/-- Outcome of the exchange-statistics read in `update`: the
`dc.node.Exchange.(*bitswap.Bitswap)` type assertion can fail, `bs.Stat()`
can return an error, or the read succeeds with a `Stat`. -/
inductive StatsRead where
  | badType
  | statError
  | ok (st : Stat)
  deriving DecidableEq

/-- Observable transport interactions of one cycle.  `alert` is one
invocation of the health-alert path (`reportHealthAlert`), `dial` is one
connection attempt by `getGrpcConn` on the metrics path, `updateMetrics`
is one `UpdateMetrics` RPC attempt. -/
inductive CallEvent where
  | alert
  | dial
  | updateMetrics
  deriving DecidableEq

/-- Embeds the counter logic of `dataCollection.update` (analytics.go lines
132 to 152).  On a failed type assertion or a failed `bs.Stat()` call the
method reports a health alert and returns early, leaving the counters
untouched; `update` has no error result, so the caller cannot observe the
failure.  On success (Go evaluates the right-hand sides with the old
`TotalUp` and `TotalDown` before overwriting them):
`dc.Upload = valOrZero(st.DataSent-dc.TotalUp) / kilobyte`,
`dc.Download = valOrZero(st.DataReceived-dc.TotalDown) / kilobyte`,
`dc.TotalUp = st.DataSent / kilobyte`,
`dc.TotalDown = st.DataReceived / kilobyte`, and the block and peer
counts are copied over. -/
def update (dc : DCState) (sr : StatsRead) : DCState × List CallEvent :=
  match sr with
  | StatsRead.badType => (dc, [CallEvent.alert])
  | StatsRead.statError => (dc, [CallEvent.alert])
  | StatsRead.ok st =>
      ({ upload := valOrZero (u64sub st.dataSent dc.totalUp) / kilobyte,
         download := valOrZero (u64sub st.dataReceived dc.totalDown) / kilobyte,
         totalUp := st.dataSent / kilobyte,
         totalDown := st.dataReceived / kilobyte,
         blocksUp := st.blocksSent,
         blocksDown := st.blocksReceived,
         numPeers := st.numPeers }, [])

/-- Environment of one `doSendData` invocation: whether each fallible
external step succeeds.  `stats` is the exchange-statistics read inside
`update`; `payloadOk` is `getPayload` (the `proto.Marshal`); `hasKey` is
`dc.node.PrivateKey != nil`; `signOk` is `PrivateKey.Sign`; `pubKeyOk` is
`ic.MarshalPublicKey`; `connOk` is `getGrpcConn`; `sendOk` is the
`UpdateMetrics` RPC. -/
structure Env where
  stats : StatsRead
  payloadOk : Bool
  hasKey : Bool
  signOk : Bool
  pubKeyOk : Bool
  connOk : Bool
  sendOk : Bool
  deriving DecidableEq

/-- Embeds the part of `dataCollection.doSendData` after the `dc.update()`
call (analytics.go lines 176 to 217), producing the emitted events and the
success flag (`true` exactly when the method returns a nil error).  The
branches mirror the source in order:
a failed `getPayload` alerts and returns its non-nil error;
a nil `PrivateKey` alerts and executes `return err` — but `err` is still
the nil error of the successful `getPayload`, so the method returns nil
(success `true`);
failed `Sign` and `MarshalPublicKey` alert and return their non-nil error;
a failed `getGrpcConn` returns its error with no alert after one dial
attempt; the `UpdateMetrics` attempt returns its error with no alert. -/
def sendPhase (ev : List CallEvent) (e : Env) : List CallEvent × Bool :=
  if !e.payloadOk then (ev ++ [CallEvent.alert], false)
  else if !e.hasKey then (ev ++ [CallEvent.alert], true)
  else if !e.signOk then (ev ++ [CallEvent.alert], false)
  else if !e.pubKeyOk then (ev ++ [CallEvent.alert], false)
  else if !e.connOk then (ev ++ [CallEvent.dial], false)
  else if !e.sendOk then (ev ++ [CallEvent.dial, CallEvent.updateMetrics], false)
  else (ev ++ [CallEvent.dial, CallEvent.updateMetrics], true)

/-- Embeds `dataCollection.doSendData` (analytics.go lines 174 to 218):
first `dc.update()` (which mutates the counters and may alert without
propagating an error), then payload build, key check, signing, public-key
marshalling, connection and RPC as in `sendPhase`.  Returns the new
counter state, the event trace and the success flag. -/
def doSendData (dc : DCState) (e : Env) : DCState × List CallEvent × Bool :=
  let p := update dc e.stats
  let q := sendPhase p.2 e
  (p.1, q.1, q.2)

/-- Embeds `backoff.Retry(f, backoff.WithMaxRetries(NewExponentialBackOff(),
maxRetryTimes))` as used by `retry` in analytics.go.  The cenkalti/backoff
semantics: the operation runs once, and on each failure `NextBackOff` is
consulted; the `WithMaxRetries` wrapper returns `Stop` only once
`maxRetryTimes` retries have already been granted, so an always-failing
operation runs `maxRetryTimes + 1` times in total.  (The inner
exponential backoff never returns `Stop` within these few sub-second
delays, far below its 15-minute elapsed-time ceiling, so only the retry
counter matters.)  `f attempt` tells whether invocation number `attempt`
(0-based) succeeds; the result is the total number of invocations and
the overall success flag. -/
def retryAux (f : Nat → Bool) : Nat → Nat → Nat × Bool
  | retriesLeft, attempt =>
    if f attempt then (attempt + 1, true)
    else
      match retriesLeft with
      | 0 => (attempt + 1, false)
      | n + 1 => retryAux f n (attempt + 1)

/-- Runs `retryAux` with the source's budget: `maxRetryTimes` retries after
the initial attempt. -/
def retryCalls (f : Nat → Bool) : Nat × Bool :=
  retryAux f maxRetryTimes 0

/-- Embeds `dataCollection.sendData`: `retry(func() error { return
dc.doSendData() })`.  Each attempt number is given its own environment
(`envs attempt`), state flows from one attempt to the next, and the
emitted events accumulate; a nil error stops the retrying, otherwise up
to `retriesLeft` further attempts follow.  The final error, if any, is
discarded by `retry`, so `sendData` returns only the state and the
trace. -/
def sendDataAux (envs : Nat → Env) : DCState → Nat → Nat → List CallEvent →
    DCState × List CallEvent
  | dc, retriesLeft, attempt, acc =>
    let r := doSendData dc (envs attempt)
    if r.2.2 then (r.1, acc ++ r.2.1)
    else
      match retriesLeft with
      | 0 => (r.1, acc ++ r.2.1)
      | n + 1 => sendDataAux envs r.1 n (attempt + 1) (acc ++ r.2.1)

/-- Runs `sendDataAux` with the source's budget. -/
def sendData (dc : DCState) (envs : Nat → Env) : DCState × List CallEvent :=
  sendDataAux envs dc maxRetryTimes 0 []

/-- Outcome of a (finite prefix of a) `collectionAgent` run: either the
loop is still running with the current counters and the accumulated
transport trace, or the goroutine crashed (a panic escaped). -/
inductive AgentOutcome where
  | running (dc : DCState) (events : List CallEvent)
  | crashed (events : List CallEvent)
  deriving DecidableEq

/-- Embeds `dataCollection.collectionAgent` (analytics.go lines 253 to
271) over a finite list of config reads, one per cycle opportunity (the
immediate startup check, then one per ticker tick).  Each read is
`config, _ := dc.node.Repo.Config()` with the error discarded:
`some consent` models a successful read returning the
`Experimental.Analytics` flag, `none` models a failed read, after which
`config` is nil and evaluating `config.Experimental.Analytics`
dereferences a nil pointer — the goroutine panics.  With consent the
cycle runs `sendData` (environments indexed by tick then attempt);
without it, nothing happens that tick. -/
def agentSteps (envs : Nat → Nat → Env) :
    DCState → List (Option Bool) → Nat → List CallEvent → AgentOutcome
  | dc, [], _, acc => AgentOutcome.running dc acc
  | _, none :: _, _, acc => AgentOutcome.crashed acc
  | dc, some true :: rest, tick, acc =>
      let r := sendData dc (envs tick)
      agentSteps envs r.1 rest (tick + 1) (acc ++ r.2)
  | dc, some false :: rest, tick, acc =>
      agentSteps envs dc rest (tick + 1) acc

/-- Runs `agentSteps` from tick 0 with an empty trace. -/
def agentRun (dc : DCState) (cfgs : List (Option Bool)) (envs : Nat → Nat → Env) :
    AgentOutcome :=
  agentSteps envs dc cfgs 0 []

/-- Feeds a list of successive raw cumulative `DataSent` readings through
`update` (the other stat fields held at zero) and collects the computed
interval upload deltas `dc.Upload`, in order. -/
def updateRunDeltas : DCState → List Nat → DCState × List Nat
  | dc, [] => (dc, [])
  | dc, c :: rest =>
      let r := update dc (StatsRead.ok ⟨c, 0, 0, 0, 0⟩)
      let s := updateRunDeltas r.1 rest
      (s.1, r.1.upload :: s.2)

/-- A `Stat` with the given `DataSent` and all other fields zero. -/
def statOnly (sent : Nat) : Stat := ⟨sent, 0, 0, 0, 0⟩

/-- An environment in which every step after the stats read succeeds. -/
def envAllOk (sr : StatsRead) : Env := ⟨sr, true, true, true, true, true, true⟩

/-- Claim C10: for every uint64 value x, `valOrZero x = x` — the `x < 0`
branch is unreachable for an unsigned argument, so `valOrZero` is the
identity, and the uint64 subtraction feeding it wraps modulo `2 ^ 64` on
underflow (yielding a nonzero value) rather than being clamped to zero. -/
theorem c10_valOrZero_identity_sub_wraps :
    (∀ x : Nat, valOrZero x = x) ∧
    (∀ a b : Nat, a < b → b < U64 →
      u64sub a b = U64 - (b - a) ∧ u64sub a b ≠ 0) := by
  constructor
  · intro x
    simp [valOrZero]
  · intro a b hab hb
    have h1 : a + (U64 - b) < U64 := by omega
    have h2 : u64sub a b = a + (U64 - b) := by
      unfold u64sub
      exact Nat.mod_eq_of_lt h1
    constructor <;> omega

/-- Claim C10 witness: at a = 1024, b = 2048 the wrapped difference is
`2 ^ 64 - 1024`, which is nonzero. -/
theorem c10_valOrZero_identity_sub_wraps_witness :
    u64sub 1024 2048 = U64 - 1024 ∧ u64sub 1024 2048 ≠ 0 :=
  c10_valOrZero_identity_sub_wraps.2 1024 2048 (by decide) (by decide)

/-- Claim C1, evaluated at the failing input: with stored previous total
2048 and a freshly read raw counter 1024 (a counter decrease), one update
step computes an interval upload of `2 ^ 54 - 1` kilobyte units — the
wrapped-around large value `(2 ^ 64 - 1024) / 1024` — not the 0 that the
claim's `max(0, new - previous)` clamping demands. -/
theorem c1_counter_decrease_wraps :
    (update ⟨0, 0, 2048, 0, 0, 0, 0⟩ (StatsRead.ok ⟨1024, 0, 0, 0, 0⟩)).1.upload =
      2 ^ 54 - 1 ∧ (2 ^ 54 - 1 : Nat) ≠ 0 := by
  decide

/-- Claim C2: from previous cumulative counters up = 1000, down = 2000 and
new raw counters up = 1500, down = 2600, one sampling step computes an
interval upload of 0 (500 / 1024 floors to 0) and records a cumulative
upload of 1 (1500 / 1024 floored). -/
theorem c2_scenario_interval_and_cumulative :
    (update ⟨0, 0, 1000, 2000, 0, 0, 0⟩ (StatsRead.ok ⟨1500, 2600, 0, 0, 0⟩)).1.upload = 0 ∧
    (update ⟨0, 0, 1000, 2000, 0, 0, 0⟩ (StatsRead.ok ⟨1500, 2600, 0, 0, 0⟩)).1.totalUp = 1 := by
  decide

/-- Claim C4, evaluated at the failing input: feeding the monotone raw
counter sequence 1024 ≤ 2048 through two sampling steps gives interval
deltas [1, 1] (the second step subtracts the kilobyte-stored total 1 from
the raw byte counter 2048 and divides by 1024 again), whose sum 2 differs
from `c_n - c_0 = 1024`. -/
theorem c4_deltas_do_not_telescope :
    (updateRunDeltas dcInit [1024, 2048]).2 = [1, 1] ∧
    (updateRunDeltas dcInit [1024, 2048]).2.sum = 2 ∧
    (2 : Nat) ≠ 2048 - 1024 := by
  decide

/-- Claim C3 counterexample: after a successful sampling step that read a
raw cumulative `DataSent` of 2048 bytes, the stored `TotalUp` is 2 (the
kilobyte quotient), not the raw value 2048 the claim asserts. -/
theorem c3_counterexample_totals_not_raw :
    (doSendData dcInit (envAllOk (StatsRead.ok (statOnly 2048)))).1.totalUp = 2 ∧
    (doSendData dcInit (envAllOk (StatsRead.ok (statOnly 2048)))).1.totalUp ≠ 2048 := by
  decide

/-- Claim C3 as amended: after every successful sampling step the stored
cumulative counters equal the latest raw cumulative byte values divided by
1024 (kilobyte units, not raw bytes), and — since `update` runs before any
build, sign or send step and no later step touches the counters — they are
updated regardless of whether the subsequent send of this tick succeeds. -/
theorem c3_amended_totals_in_kilobytes (dc : DCState) (e : Env) (st : Stat)
    (h : e.stats = StatsRead.ok st) :
    (doSendData dc e).1.totalUp = st.dataSent / kilobyte ∧
    (doSendData dc e).1.totalDown = st.dataReceived / kilobyte := by
  have h1 : (doSendData dc e).1 = (update dc e.stats).1 := rfl
  rw [h1, h]
  exact ⟨rfl, rfl⟩

/-- Claim C3 witness: a concrete successful read of 3000 bytes sent yields
stored totals `3000 / 1024` and `0 / 1024`, whatever the send outcome. -/
theorem c3_amended_totals_in_kilobytes_witness :
    (doSendData dcInit (envAllOk (StatsRead.ok (statOnly 3000)))).1.totalUp = 3000 / kilobyte ∧
    (doSendData dcInit (envAllOk (StatsRead.ok (statOnly 3000)))).1.totalDown = 0 / kilobyte :=
  c3_amended_totals_in_kilobytes dcInit (envAllOk (StatsRead.ok (statOnly 3000)))
    (statOnly 3000) rfl

/-- Claim C5 counterexample: in a cycle whose stats read fails but whose
remaining steps succeed, the trace contains one alert AND one dial and one
`UpdateMetrics` delivery attempt — not the zero metrics-delivery calls the
claim asserts, because `update` reports the failure but cannot propagate
it, so `doSendData` carries on with the stale snapshot. -/
theorem c5_counterexample_delivery_still_attempted :
    (sendData dcInit (fun _ => envAllOk StatsRead.statError)).2 =
      [CallEvent.alert, CallEvent.dial, CallEvent.updateMetrics] ∧
    CallEvent.updateMetrics ∈ (sendData dcInit (fun _ => envAllOk StatsRead.statError)).2 := by
  decide

/-- Claim C5 as amended: whenever the stats read fails (wrong exchange type
or stats error) and the rest of the cycle succeeds, the cycle performs
exactly one health-alert call and nevertheless one metrics-delivery
attempt: the early return in `update` skips only the counter refresh, not
the send, so the counters are left untouched and the stale snapshot is
delivered. -/
theorem c5_amended_alert_then_delivery (dc : DCState) (e : Env)
    (hs : e.stats = StatsRead.badType ∨ e.stats = StatsRead.statError)
    (hp : e.payloadOk = true) (hk : e.hasKey = true) (hsg : e.signOk = true)
    (hpk : e.pubKeyOk = true) (hc : e.connOk = true) (hsd : e.sendOk = true) :
    sendData dc (fun _ => e) =
      (dc, [CallEvent.alert, CallEvent.dial, CallEvent.updateMetrics]) := by
  have h1 : update dc e.stats = (dc, [CallEvent.alert]) := by
    rcases hs with h | h <;> rw [h] <;> rfl
  have h2 : doSendData dc e =
      (dc, [CallEvent.alert, CallEvent.dial, CallEvent.updateMetrics], true) := by
    show ((update dc e.stats).1, sendPhase (update dc e.stats).2 e) = _
    rw [h1]
    simp [sendPhase, hp, hk, hsg, hpk, hc, hsd]
  simp [sendData, sendDataAux, h2]

/-- Claim C5 witness: the concrete stats-error environment with all later
steps succeeding produces the trace alert, dial, updateMetrics. -/
theorem c5_amended_alert_then_delivery_witness :
    sendData dcInit (fun _ => envAllOk StatsRead.statError) =
      (dcInit, [CallEvent.alert, CallEvent.dial, CallEvent.updateMetrics]) :=
  c5_amended_alert_then_delivery dcInit (envAllOk StatsRead.statError)
    (Or.inr rfl) rfl rfl rfl rfl rfl rfl

/-- Claim C6 counterexample: an operation that fails on every invocation is
invoked 4 times by the retry wrapper — `backoff.WithMaxRetries(b, 3)`
grants 3 retries AFTER the initial attempt — not the 3 times the claim
asserts. -/
theorem c6_counterexample_four_calls :
    retryCalls (fun _ => false) = (4, false) ∧ (4 : Nat) ≠ 3 := by
  decide

/-- Claim C6 as amended: an operation failing on its first two invocations
and succeeding on the third is invoked exactly 3 times with overall
success; an operation failing on every invocation is invoked exactly 4
times (the initial attempt plus `maxRetryTimes = 3` retries) and the
failure is then absorbed silently — `retry` discards the final error. -/
theorem c6_amended_retry_counts (f g : Nat → Bool)
    (hf0 : f 0 = false) (hf1 : f 1 = false) (hf2 : f 2 = true)
    (hg : ∀ i, g i = false) :
    retryCalls f = (3, true) ∧ retryCalls g = (4, false) := by
  constructor
  · simp [retryCalls, maxRetryTimes, retryAux, hf0, hf1, hf2]
  · simp [retryCalls, maxRetryTimes, retryAux, hg]

/-- Claim C6 witness: concrete operations — one succeeding first at
invocation index 2, one always failing — realise the two counts. -/
theorem c6_amended_retry_counts_witness :
    retryCalls (fun i => decide (2 ≤ i)) = (3, true) ∧
    retryCalls (fun _ => false) = (4, false) :=
  c6_amended_retry_counts (fun i => decide (2 ≤ i)) (fun _ => false)
    rfl rfl rfl (fun _ => rfl)

/-- Claim C7, evaluated at the failing input: with no private key (stats
read and payload marshal succeeding), `doSendData` emits exactly one
health alert, attempts no dial and no delivery, and returns a NIL error —
the success flag is `true`, because the `return err` in this branch
returns the stale nil error of the preceding successful `getPayload`,
where the claim demands a non-nil SigningUnavailable error. -/
theorem c7_nil_key_silent_success :
    (doSendData dcInit ⟨StatsRead.ok (statOnly 1500), true, false, true, true, true, true⟩).2 =
      ([CallEvent.alert], true) := by
  decide

/-- Helper for claim C8: with every configuration read returning consent
false, the agent loop performs no cycle, leaves the counters untouched and
emits no transport event, whatever tick and accumulator it starts from. -/
theorem agentSteps_consent_false (envs : Nat → Nat → Env) :
    ∀ (cfgs : List (Option Bool)) (dc : DCState) (tick : Nat) (acc : List CallEvent),
      (∀ c ∈ cfgs, c = some false) →
      agentSteps envs dc cfgs tick acc = AgentOutcome.running dc acc := by
  intro cfgs
  induction cfgs with
  | nil => intro dc tick acc _; rfl
  | cons c rest ih =>
      intro dc tick acc h
      have hc : c = some false := h c (List.mem_cons_self c rest)
      subst hc
      have hstep : agentSteps envs dc (some false :: rest) tick acc =
          agentSteps envs dc rest (tick + 1) acc := rfl
      exact hstep.trans (ih dc (tick + 1) acc (fun x hx => h x (List.mem_cons_of_mem _ hx)))

/-- Claim C8: if the consent flag reads false at activation and at every
subsequent heartbeat tick, the transport is never invoked — the run ends
with an empty event trace: zero dials, zero UpdateMetrics calls and zero
alert-path (CollectHealth) calls — and the counters are untouched. -/
theorem c8_no_consent_no_transport (dc : DCState) (cfgs : List (Option Bool))
    (envs : Nat → Nat → Env) (h : ∀ c ∈ cfgs, c = some false) :
    agentRun dc cfgs envs = AgentOutcome.running dc [] :=
  agentSteps_consent_false envs cfgs dc 0 [] h

/-- Claim C8 witness: three consecutive consent-false reads yield an empty
transport trace. -/
theorem c8_no_consent_no_transport_witness :
    agentRun dcInit [some false, some false, some false]
      (fun _ _ => envAllOk StatsRead.statError) = AgentOutcome.running dcInit [] :=
  c8_no_consent_no_transport dcInit [some false, some false, some false]
    (fun _ _ => envAllOk StatsRead.statError) (by decide)

/-- Helper for claim C9: as long as every configuration read succeeds, the
agent loop never crashes, whatever the per-tick environments do — sampler,
build, sign and transport failures are all contained in `sendData`. -/
theorem agentSteps_config_ok_never_crashes (envs : Nat → Nat → Env) :
    ∀ (cfgs : List Bool) (dc : DCState) (tick : Nat) (acc : List CallEvent),
      ∃ dc2 ev, agentSteps envs dc (cfgs.map some) tick acc =
        AgentOutcome.running dc2 ev := by
  intro cfgs
  induction cfgs with
  | nil => intro dc tick acc; exact ⟨dc, acc, rfl⟩
  | cons b rest ih =>
      intro dc tick acc
      cases b with
      | true =>
          have hstep : agentSteps envs dc ((true :: rest).map some) tick acc =
              agentSteps envs (sendData dc (envs tick)).1 (rest.map some) (tick + 1)
                (acc ++ (sendData dc (envs tick)).2) := rfl
          obtain ⟨dc2, ev, hrun⟩ := ih (sendData dc (envs tick)).1 (tick + 1)
            (acc ++ (sendData dc (envs tick)).2)
          exact ⟨dc2, ev, hstep.trans hrun⟩
      | false =>
          have hstep : agentSteps envs dc ((false :: rest).map some) tick acc =
              agentSteps envs dc (rest.map some) (tick + 1) acc := rfl
          obtain ⟨dc2, ev, hrun⟩ := ih dc (tick + 1) acc
          exact ⟨dc2, ev, hstep.trans hrun⟩

/-- Claim C9 counterexample: a single failed configuration read crashes the
agent loop — `config, _ := dc.node.Repo.Config()` discards the error and
the subsequent `config.Experimental.Analytics` dereferences a nil pointer
— contradicting the claim that every failure is contained at the cycle
boundary and the loop always continues. -/
theorem c9_counterexample_config_read_crashes :
    agentRun dcInit [none] (fun _ _ => envAllOk StatsRead.statError) =
      AgentOutcome.crashed [] := rfl

/-- Claim C9 as amended: every failure inside a cycle other than a failed
configuration read — sampler failure, build or sign failure, transport
failure, in any combination across any number of ticks — is contained and
the loop keeps running; a failed configuration read, however, crashes the
loop via a nil-pointer dereference. -/
theorem c9_containment_except_config_read (dc : DCState) (cfgs : List Bool)
    (envs : Nat → Nat → Env) (rest : List (Option Bool)) :
    (∃ dc2 ev, agentRun dc (cfgs.map some) envs = AgentOutcome.running dc2 ev) ∧
    agentRun dc (none :: rest) envs = AgentOutcome.crashed [] :=
  ⟨agentSteps_config_ok_never_crashes envs cfgs dc 0 [], rfl⟩

end Analytics
